import Mathlib

/-!
Verification of the node-opcua client connection-resilience engine against
its natural-language specification.

The repository snapshot under scrutiny contains only the end-to-end test
suite (`test_e2e_connection_reconnection.js`); the client implementation
(`OPCUAClient`, the backoff scheduler, the subscription recovery engine)
is not part of the snapshot.  Following the specification, the missing
components are modelled here as an executable small-step state machine:
the application issues commands (`connect`, `disconnect`), the environment
supplies attempt outcomes and transport-loss signals, and the machine
emits the observable events the tests count (`backoff`,
`start_reconnection`, `connection_reestablished`, `after_reconnection`,
`close`, plus the resolution of the pending `connect()` callback).
-/

namespace NodeOpcua

/-- Modelled from the spec: §3 ConnectionStrategy configuration
`{maxRetry, initialDelay, maxDelay, randomisationFactor}`.  `maxRetry`
is a non-negative integer or unbounded (`none`); delays are in
milliseconds.  Every strategy appearing in the test file uses
`randomisationFactor = 0`, so the jitter term of §4.1 vanishes and is
not modelled further. -/
structure ConnectionStrategy where
  maxRetry : Option Nat
  initialDelay : Nat
  maxDelay : Nat
  randomisationFactor : Nat
  deriving DecidableEq, Repr

/-- Modelled from the spec: §3 ConnectionState, one of Disconnected,
Connecting, Connected, Reconnecting, Disconnecting.  `disconnecting` is
transient: `disconnect()` traverses it and lands in `disconnected`
within the same atomic step of the model. -/
inductive ConnectionState where
  | disconnected
  | connecting
  | connected
  | reconnecting
  | disconnecting
  deriving DecidableEq, Repr

/-- Modelled from the spec: §7 error taxonomy restricted to the kinds a
single connection attempt can report (NetworkFailure,
ProtocolIncompatible, AuthenticationFailure). -/
inductive FailureKind where
  | networkFailure
  | protocolIncompatible
  | authenticationFailure
  deriving DecidableEq, Repr

/-- Inputs to the connection state machine: application commands
(`connectCmd`, `disconnectCmd`) and environment signals (outcome of an
in-flight connection attempt, transport loss). -/
inductive Input where
  | connectCmd
  | attemptOk
  | attemptFail (kind : FailureKind)
  | channelLost
  | disconnectCmd
  deriving DecidableEq, Repr

/-- Observable events of §6: `backoff(attemptNumber, delay)` per retry,
`start_reconnection` per episode, `connection_reestablished` and
`after_reconnection` per recovered episode, `close(error|null)`
terminal; `connectCallbackEv` is the resolution of the pending
`connect()` callback and `connectRefusedEv` the error returned to a
second `connect()` caller. -/
inductive Output where
  | backoffEv (attempt : Nat) (delay : Nat)
  | startReconnectionEv
  | connectionReestablishedEv
  | afterReconnectionEv
  | closeEv (isError : Bool)
  | connectCallbackEv (isError : Bool)
  | connectRefusedEv
  deriving DecidableEq, Repr

/-- Modelled from the spec: the client-side state owned by the
ConnectionStateMachine — the current ConnectionState, the retry count of
the current episode (reset when an episode starts or succeeds), and
whether the original `connect()` callback is still pending. -/
structure Client where
  strategy : ConnectionStrategy
  state : ConnectionState
  retryCount : Nat
  pendingConnect : Bool
  deriving DecidableEq, Repr

/-- Modelled from the spec: §4.1 BackoffScheduler delay law
`min(maxDelay, initialDelay * growthFactor^attempt)` with growth factor
2; the `randomisationFactor` jitter is zero for every strategy the test
file defines. -/
def computeDelay (s : ConnectionStrategy) (attempt : Nat) : Nat :=
  min s.maxDelay (s.initialDelay * 2 ^ attempt)

/-- Modelled from the spec: §4.1 — retries remain while the attempt
count has not exceeded a finite `maxRetry`; an unbounded strategy always
has retries remaining. -/
def retriesRemain (c : Client) : Bool :=
  match c.strategy.maxRetry with
  | none => true
  | some m => c.retryCount < m

/-- Modelled from the spec: §4.3 ConnectionStateMachine transition
relation, deterministic step:
`Disconnected --connect()--> Connecting`;
`Connecting/Reconnecting --failure & retries remain--> same` emitting
one `backoff`; `--retries exhausted--> Disconnected` emitting `close`
and resolving a pending `connect()` with failure;
`Connected --channelLost--> Reconnecting` emitting `start_reconnection`
once (further losses while Reconnecting are coalesced);
`Reconnecting --success--> Connected` emitting
`connection_reestablished` then `after_reconnection`;
`connect()` while not Disconnected is an error returned to the caller
leaving state untouched; `disconnect()` from any state cancels the
scheduler, resolves a pending `connect()` with failure, emits `close`
exactly once, and lands in Disconnected (idempotent when already
Disconnected); environment signals arriving after teardown are
suppressed. -/
def step (c : Client) (i : Input) : Client × List Output :=
  match i with
  | .connectCmd =>
    match c.state with
    | .disconnected =>
      ({ c with state := .connecting, retryCount := 0, pendingConnect := true }, [])
    | _ => (c, [.connectRefusedEv])
  | .attemptOk =>
    match c.state with
    | .connecting =>
      ({ c with state := .connected, retryCount := 0, pendingConnect := false },
       [.connectCallbackEv false])
    | .reconnecting =>
      ({ c with state := .connected, retryCount := 0 },
       [.connectionReestablishedEv, .afterReconnectionEv])
    | _ => (c, [])
  | .attemptFail _ =>
    match c.state with
    | .connecting =>
      if retriesRemain c then
        ({ c with retryCount := c.retryCount + 1 },
         [.backoffEv c.retryCount (computeDelay c.strategy c.retryCount)])
      else
        ({ c with state := .disconnected, pendingConnect := false },
         (if c.pendingConnect then [.connectCallbackEv true] else []) ++ [.closeEv true])
    | .reconnecting =>
      if retriesRemain c then
        ({ c with retryCount := c.retryCount + 1 },
         [.backoffEv c.retryCount (computeDelay c.strategy c.retryCount)])
      else
        ({ c with state := .disconnected, pendingConnect := false },
         (if c.pendingConnect then [.connectCallbackEv true] else []) ++ [.closeEv true])
    | _ => (c, [])
  | .channelLost =>
    match c.state with
    | .connected =>
      ({ c with state := .reconnecting, retryCount := 0 }, [.startReconnectionEv])
    | _ => (c, [])
  | .disconnectCmd =>
    match c.state with
    | .disconnected => (c, [])
    | _ =>
      ({ c with state := .disconnected, pendingConnect := false, retryCount := 0 },
       (if c.pendingConnect then [.connectCallbackEv true] else []) ++ [.closeEv false])

/-- Run the state machine over a list of inputs, accumulating the
emitted events in order. -/
def run (c : Client) : List Input → Client × List Output
  | [] => (c, [])
  | i :: is => ((run (step c i).1 is).1, (step c i).2 ++ (run (step c i).1 is).2)

/-- §6 observable property: `isReconnecting` is true strictly during
`Reconnecting`. -/
def isReconnecting (c : Client) : Bool :=
  match c.state with
  | .reconnecting => true
  | _ => false

/-- A client freshly constructed with a given strategy: Disconnected,
no retries consumed, no pending `connect()` callback. -/
def initialClient (s : ConnectionStrategy) : Client :=
  { strategy := s, state := .disconnected, retryCount := 0, pendingConnect := false }

def isBackoffEv : Output → Bool
  | .backoffEv _ _ => true
  | _ => false

def isCloseEv : Output → Bool
  | .closeEv _ => true
  | _ => false

def isStartReconnectionEv : Output → Bool
  | .startReconnectionEv => true
  | _ => false

/-- Count the events satisfying `p` in an emitted event list. -/
def countEv (p : Output → Bool) : List Output → Nat
  | [] => 0
  | o :: os => (if p o then 1 else 0) + countEv p os

/-- Number of outage episodes that begin along a run: positions where
the machine is Connected and the transport reports loss. -/
def countEpisodeStarts (c : Client) : List Input → Nat
  | [] => 0
  | i :: is =>
    (if c.state = .connected ∧ i = .channelLost then 1 else 0) +
      countEpisodeStarts (step c i).1 is

/-- The steps the spec calls a full disconnection: explicit
`disconnect()` from a not-yet-disconnected state, or a failed attempt
with retries exhausted while Connecting or Reconnecting. -/
def isTerminalStep (c : Client) (i : Input) : Bool :=
  match i, c.state with
  | .disconnectCmd, .disconnected => false
  | .disconnectCmd, _ => true
  | .attemptFail _, .connecting => ! retriesRemain c
  | .attemptFail _, .reconnecting => ! retriesRemain c
  | _, _ => false

/-- Number of full-disconnection steps along a run. -/
def countTerminalSteps (c : Client) : List Input → Nat
  | [] => 0
  | i :: is =>
    (if isTerminalStep c i then 1 else 0) + countTerminalSteps (step c i).1 is

/-- Strategy constant from the test file (lines 20–25):
`{maxRetry: 1, initialDelay: 10, maxDelay: 20, randomisationFactor: 0}`. -/
def fail_fast_connectivity_strategy : ConnectionStrategy :=
  { maxRetry := some 1, initialDelay := 10, maxDelay := 20, randomisationFactor := 0 }

/-- Strategy constant from the test file (lines 26–31). -/
def robust_connectivity_strategy : ConnectionStrategy :=
  { maxRetry := some 100, initialDelay := 10, maxDelay := 200, randomisationFactor := 0 }

/-- Strategy constant from the test file (lines 39–44). -/
def infinite_connectivity_strategy : ConnectionStrategy :=
  { maxRetry := some 1000000, initialDelay := 10, maxDelay := 200, randomisationFactor := 0 }

/-- Modelled from the spec: §3 MonitoredItem
`{nodeId, attributeId, samplingInterval, queueSize, discardOldest}`,
re-creatable deterministically from its own fields. -/
structure MonitoredItem where
  nodeId : Nat
  attributeId : Nat
  samplingInterval : Nat
  queueSize : Nat
  discardOldest : Bool
  deriving DecidableEq, Repr

/-- Modelled from the spec: §3 Subscription requested parameters, the
client-side intent that must survive recreation. -/
structure SubscriptionParams where
  requestedPublishingInterval : Nat
  requestedLifetimeCount : Nat
  requestedMaxKeepAliveCount : Nat
  deriving DecidableEq, Repr

/-- Modelled from the spec: §3 Subscription — requested parameters, the
recovery cursor `lastKnownSequenceNumber` (highest notification sequence
number successfully consumed), and the cached MonitoredItem
definitions. -/
structure ClientSubscription where
  params : SubscriptionParams
  lastKnownSequenceNumber : Nat
  monitoredItems : List MonitoredItem
  deriving DecidableEq, Repr

/-- Events produced by subscription recovery: an in-order notification
delivery carrying its sequence number, or a NotificationGap surfacing a
missing inclusive range `[lo, hi]` the server could no longer supply. -/
inductive RecoveryEvent where
  | delivered (seq : Nat)
  | notificationGap (lo : Nat) (hi : Nat)
  deriving DecidableEq, Repr

/-- Modelled from the spec: §4.5 republish-based gap recovery.  The
client iterates a retransmission cursor starting at
`lastKnownSequenceNumber + 1` over the server's remaining backlog of
sequence numbers.  A backlog entry below the cursor was already
consumed and is never re-delivered; an entry equal to the cursor is
delivered and advances the cursor; an entry above the cursor means the
server can no longer supply the numbers in between, which are surfaced
as one NotificationGap before delivery resumes at that entry. -/
def republish (cursor : Nat) : List Nat → List RecoveryEvent
  | [] => []
  | s :: rest =>
    if s < cursor then republish cursor rest
    else if s = cursor then .delivered s :: republish (s + 1) rest
    else .notificationGap cursor (s - 1) :: .delivered s :: republish (s + 1) rest

/-- The sequence numbers delivered to the application, in emission
order. -/
def deliveredSeqs : List RecoveryEvent → List Nat
  | [] => []
  | .delivered s :: es => s :: deliveredSeqs es
  | .notificationGap _ _ :: es => deliveredSeqs es

/-- Modelled from the spec: §4.5 recreation path — a new subscription
with the same requested parameters, every MonitoredItem re-created from
its cached client-side definition, and a fresh recovery cursor. -/
def recreateSubscription (sub : ClientSubscription) : ClientSubscription :=
  { params := sub.params
    lastKnownSequenceNumber := 0
    monitoredItems := sub.monitoredItems }

/-- Outcome of recovering one subscription after reconnection. -/
inductive RecoveryOutcome where
  | resumed (events : List RecoveryEvent)
  | recreated (newSub : ClientSubscription)
  deriving DecidableEq, Repr

/-- Modelled from the spec: §4.5 server-side expiry condition — the
server drops a subscription when the total outage time reaches
`requestedLifetimeCount * revisedPublishingInterval`. -/
def subscriptionExpired (outageDuration lifetimeCount publishingInterval : Nat) : Bool :=
  lifetimeCount * publishingInterval ≤ outageDuration

/-- Modelled from the spec: §4.4 — a session is stillValid if the
outage duration is within the effective timeout AND the server, when
probed, still recognizes the authentication token. -/
def sessionStillValid (outageDuration effectiveTimeout : Nat)
    (serverRecognizesToken : Bool) : Bool :=
  decide (outageDuration < effectiveTimeout) && serverRecognizesToken

/-- Modelled from the spec: §4.5 recovery of one subscription — the
existence probe either finds the server still holding the subscription
and its queued backlog (resume via republish from the cursor), or finds
it dropped (recreate with the same requested parameters and cached
monitored items). -/
def recoverSubscription (sub : ClientSubscription) :
    Option (List Nat) → RecoveryOutcome
  | some backlog => .resumed (republish (sub.lastKnownSequenceNumber + 1) backlog)
  | none => .recreated (recreateSubscription sub)

/-- Modelled from the spec: §4.5 step 1 — the lightweight existence
probe issued for each subscription after reconnection.  The server
still holds the subscription (and its queued backlog) unless the outage
outlived the subscription's server-side lifetime, in which case the
probe reports it dropped. -/
def probeSubscription (outageDuration : Nat) (params : SubscriptionParams)
    (backlog : List Nat) : Option (List Nat) :=
  if subscriptionExpired outageDuration params.requestedLifetimeCount
      params.requestedPublishingInterval
  then none
  else some backlog

/-- A secure channel as §3 describes it: the negotiated protocol
version and an identifying handle. -/
structure Channel where
  negotiatedProtocolVersion : Nat
  channelId : Nat
  deriving DecidableEq, Repr

/-- Server-side observable state for a single connection attempt:
advertised protocol version, reachability, whether security negotiation
would succeed, and the count of accepted channels. -/
structure ServerState where
  protocolVersion : Nat
  reachable : Bool
  securityOk : Bool
  channelCount : Nat
  deriving DecidableEq, Repr

/-- The stage at which a single `open` attempt failed. -/
inductive OpenFailure where
  | networkUnreachable
  | protocolIncompatible
  | securityRejected
  deriving DecidableEq, Repr

/-- Modelled from the spec: §4.2 SecureChannelManager.open — exactly one
connection attempt (transport connect, protocol handshake, security
negotiation); the failure of any stage is a single reported failure,
never retried internally, and leaves the server without a new
channel.  A protocol version mismatch fails the handshake stage. -/
def openChannel (srv : ServerState) (clientProtocolVersion : Nat) :
    Except OpenFailure Channel × ServerState :=
  if srv.reachable = false then (.error .networkUnreachable, srv)
  else if clientProtocolVersion ≠ srv.protocolVersion then (.error .protocolIncompatible, srv)
  else if srv.securityOk = false then (.error .securityRejected, srv)
  else (.ok ⟨srv.protocolVersion, srv.channelCount⟩,
        { srv with channelCount := srv.channelCount + 1 })

/-- How an `open` failure is surfaced to the ConnectionStateMachine: as
an ordinary attempt failure of the corresponding §7 kind. -/
def failureKindOfOpen : OpenFailure → FailureKind
  | .networkUnreachable => .networkFailure
  | .protocolIncompatible => .protocolIncompatible
  | .securityRejected => .authenticationFailure

theorem countEv_append (p : Output → Bool) (a b : List Output) :
    countEv p (a ++ b) = countEv p a + countEv p b := by
  induction a with
  | nil => simp [countEv]
  | cons o os ih => simp [countEv, ih]; omega

theorem step_disconnected_noop (c : Client) (i : Input)
    (hs : c.state = .disconnected) (hi : i ≠ .connectCmd) :
    step c i = (c, []) := by
  cases i with
  | connectCmd => exact absurd rfl hi
  | attemptOk => simp [step, hs]
  | attemptFail k => simp [step, hs]
  | channelLost => simp [step, hs]
  | disconnectCmd => simp [step, hs]

theorem disconnect_lands_disconnected (c : Client) :
    (step c .disconnectCmd).1.state = .disconnected := by
  cases hs : c.state <;> simp [step, hs]

theorem run_disconnected_noop (c : Client) (is : List Input)
    (hs : c.state = .disconnected) (hi : .connectCmd ∉ is) :
    run c is = (c, []) := by
  induction is with
  | nil => rfl
  | cons i is ih =>
    have hne : i ≠ .connectCmd := fun h => hi (h ▸ List.mem_cons_self i is)
    have hstep := step_disconnected_noop c i hs hne
    simp [run, hstep, ih (fun h => hi (List.mem_cons_of_mem i h))]

theorem countStartReconnection_step (c : Client) (i : Input) :
    countEv isStartReconnectionEv (step c i).2 =
      if c.state = .connected ∧ i = .channelLost then 1 else 0 := by
  cases i <;> cases hs : c.state <;>
    simp [step, hs, countEv, isStartReconnectionEv]
  all_goals (cases hp : c.pendingConnect <;> cases hr : retriesRemain c <;>
    simp [countEv, isStartReconnectionEv, hp, hr])

theorem countStartReconnection_run (is : List Input) (c : Client) :
    countEv isStartReconnectionEv (run c is).2 = countEpisodeStarts c is := by
  induction is generalizing c with
  | nil => rfl
  | cons i is ih =>
    simp [run, countEpisodeStarts, countEv_append, countStartReconnection_step, ih]

theorem countClose_step (c : Client) (i : Input) :
    countEv isCloseEv (step c i).2 = if isTerminalStep c i then 1 else 0 := by
  cases i <;> cases hs : c.state <;>
    simp [step, hs, countEv, isCloseEv, isTerminalStep]
  all_goals (cases hp : c.pendingConnect <;> cases hr : retriesRemain c <;>
    simp [countEv, isCloseEv, hp, hr])

theorem countClose_run (is : List Input) (c : Client) :
    countEv isCloseEv (run c is).2 = countTerminalSteps c is := by
  induction is generalizing c with
  | nil => rfl
  | cons i is ih =>
    simp [run, countTerminalSteps, countEv_append, countClose_step, ih]

theorem connected_step_stable (c : Client) (i : Input)
    (hs : c.state = .connected) (h1 : i ≠ .channelLost) (h2 : i ≠ .disconnectCmd) :
    (step c i).1.state = .connected ∧ countEv isCloseEv (step c i).2 = 0 := by
  cases i with
  | connectCmd => simp [step, hs, countEv, isCloseEv]
  | attemptOk => simp [step, hs, countEv]
  | attemptFail k => simp [step, hs, countEv]
  | channelLost => exact absurd rfl h1
  | disconnectCmd => exact absurd rfl h2

theorem connected_run_no_close (is : List Input) (c : Client)
    (hs : c.state = .connected)
    (hi : ∀ i ∈ is, i ≠ .channelLost ∧ i ≠ .disconnectCmd) :
    countEv isCloseEv (run c is).2 = 0 := by
  induction is generalizing c with
  | nil => rfl
  | cons i is ih =>
    have hhead := hi i (List.mem_cons_self i is)
    have hstep := connected_step_stable c i hs hhead.1 hhead.2
    have htail := ih (step c i).1 hstep.1 (fun j hj => hi j (List.mem_cons_of_mem i hj))
    simp [run, countEv_append, hstep.2, htail]

theorem deliveredSeqs_lowerBound (backlog : List Nat) :
    ∀ (cursor : Nat), ∀ s ∈ deliveredSeqs (republish cursor backlog), cursor ≤ s := by
  induction backlog with
  | nil => intro cursor s hs; simp [republish, deliveredSeqs] at hs
  | cons h rest ih =>
    intro cursor s hs
    rcases lt_trichotomy h cursor with h1 | h1 | h1
    · rw [republish, if_pos h1] at hs
      exact ih cursor s hs
    · subst h1
      rw [republish, if_neg (lt_irrefl h), if_pos rfl, deliveredSeqs] at hs
      rcases List.mem_cons.mp hs with h2 | h2
      · omega
      · have := ih (h + 1) s h2; omega
    · rw [republish, if_neg (by omega), if_neg (by omega),
        deliveredSeqs, deliveredSeqs] at hs
      rcases List.mem_cons.mp hs with h2 | h2
      · omega
      · have := ih (h + 1) s h2; omega

theorem deliveredSeqs_ascending (backlog : List Nat) :
    ∀ (cursor : Nat), List.Pairwise (· < ·) (deliveredSeqs (republish cursor backlog)) := by
  induction backlog with
  | nil => intro cursor; simp [republish, deliveredSeqs]
  | cons h rest ih =>
    intro cursor
    rcases lt_trichotomy h cursor with h1 | h1 | h1
    · rw [republish, if_pos h1]
      exact ih cursor
    · subst h1
      rw [republish, if_neg (lt_irrefl h), if_pos rfl, deliveredSeqs]
      refine List.pairwise_cons.mpr ⟨?_, ih (h + 1)⟩
      intro s hs
      have := deliveredSeqs_lowerBound rest (h + 1) s hs
      omega
    · rw [republish, if_neg (by omega), if_neg (by omega),
        deliveredSeqs, deliveredSeqs]
      refine List.pairwise_cons.mpr ⟨?_, ih (h + 1)⟩
      intro s hs
      have := deliveredSeqs_lowerBound rest (h + 1) s hs
      omega

theorem gap_surfaced (backlog : List Nat) :
    ∀ (cursor m : Nat), cursor ≤ m → m ∉ backlog → (∃ s ∈ backlog, m < s) →
      ∃ lo hi, RecoveryEvent.notificationGap lo hi ∈ republish cursor backlog ∧
        lo ≤ m ∧ m ≤ hi := by
  induction backlog with
  | nil =>
    intro cursor m _ _ hwit
    rcases hwit with ⟨s, hs, _⟩
    simp at hs
  | cons h rest ih =>
    intro cursor m hm hnot hwit
    have hmh : m ≠ h := fun e => hnot (e ▸ List.mem_cons_self h rest)
    have hnot_rest : m ∉ rest := fun hr => hnot (List.mem_cons_of_mem h hr)
    rcases lt_trichotomy h cursor with h1 | h1 | h1
    · have hwit' : ∃ s ∈ rest, m < s := by
        rcases hwit with ⟨s, hs, hms⟩
        rcases List.mem_cons.mp hs with rfl | hs'
        · omega
        · exact ⟨s, hs', hms⟩
      obtain ⟨lo, hi, hmem, hl, hh⟩ := ih cursor m hm hnot_rest hwit'
      refine ⟨lo, hi, ?_, hl, hh⟩
      rw [republish, if_pos h1]
      exact hmem
    · subst h1
      have hm1 : h + 1 ≤ m := by omega
      have hwit' : ∃ s ∈ rest, m < s := by
        rcases hwit with ⟨s, hs, hms⟩
        rcases List.mem_cons.mp hs with rfl | hs'
        · omega
        · exact ⟨s, hs', hms⟩
      obtain ⟨lo, hi, hmem, hl, hh⟩ := ih (h + 1) m hm1 hnot_rest hwit'
      refine ⟨lo, hi, ?_, hl, hh⟩
      rw [republish, if_neg (lt_irrefl h), if_pos rfl]
      exact List.mem_cons_of_mem _ hmem
    · by_cases hmlt : m < h
      · refine ⟨cursor, h - 1, ?_, hm, by omega⟩
        rw [republish, if_neg (by omega), if_neg (by omega)]
        exact List.mem_cons_self _ _
      · have hm1 : h + 1 ≤ m := by omega
        have hwit' : ∃ s ∈ rest, m < s := by
          rcases hwit with ⟨s, hs, hms⟩
          rcases List.mem_cons.mp hs with rfl | hs'
          · omega
          · exact ⟨s, hs', hms⟩
        obtain ⟨lo, hi, hmem, hl, hh⟩ := ih (h + 1) m hm1 hnot_rest hwit'
        refine ⟨lo, hi, ?_, hl, hh⟩
        rw [republish, if_neg (by omega), if_neg (by omega)]
        exact List.mem_cons_of_mem _ (List.mem_cons_of_mem _ hmem)

theorem republish_contiguous (n : Nat) :
    ∀ (cursor : Nat), republish cursor (List.range' cursor n) =
      (List.range' cursor n).map RecoveryEvent.delivered := by
  induction n with
  | zero => intro cursor; simp [List.range', republish]
  | succ n ih =>
    intro cursor
    rw [List.range'_succ, republish, if_neg (lt_irrefl cursor), if_pos rfl,
      List.map_cons, ih (cursor + 1)]

theorem backoff_run_bound (n : Nat) :
    ∀ (c : Client) (k : FailureKind) (m : Nat),
      c.strategy.maxRetry = some m →
      countEv isBackoffEv (run c (List.replicate n (Input.attemptFail k))).2
        ≤ m - c.retryCount := by
  induction n with
  | zero => intro c k m hm; simp [run, countEv]
  | succ n ih =>
    intro c k m hm
    rw [List.replicate_succ]
    simp only [run]
    rw [countEv_append]
    cases hs : c.state with
    | connecting =>
      by_cases hr : retriesRemain c
      · have hrc : c.retryCount < m := by
          simpa [retriesRemain, hm] using hr
        have e1 : step c (Input.attemptFail k) =
            ({ c with retryCount := c.retryCount + 1 },
             [Output.backoffEv c.retryCount (computeDelay c.strategy c.retryCount)]) := by
          simp [step, hs, hr]
        have htail : countEv isBackoffEv
            (run { c with retryCount := c.retryCount + 1 }
              (List.replicate n (Input.attemptFail k))).2 ≤ m - (c.retryCount + 1) :=
          ih _ k m hm
        rw [e1]
        simp [countEv, isBackoffEv]
        omega
      · rw [Bool.not_eq_true] at hr
        have e1 : step c (Input.attemptFail k) =
            ({ c with state := .disconnected, pendingConnect := false },
             (if c.pendingConnect then [Output.connectCallbackEv true] else []) ++
               [Output.closeEv true]) := by
          simp [step, hs, hr]
        have htail : countEv isBackoffEv
            (run { c with state := .disconnected, pendingConnect := false }
              (List.replicate n (Input.attemptFail k))).2 ≤ m - c.retryCount :=
          ih _ k m hm
        have hz : countEv isBackoffEv
            ((if c.pendingConnect then [Output.connectCallbackEv true] else []) ++
              [Output.closeEv true]) = 0 := by
          cases hp : c.pendingConnect <;> simp [countEv, isBackoffEv]
        rw [e1]
        simp only [hz]
        omega
    | reconnecting =>
      by_cases hr : retriesRemain c
      · have hrc : c.retryCount < m := by
          simpa [retriesRemain, hm] using hr
        have e1 : step c (Input.attemptFail k) =
            ({ c with retryCount := c.retryCount + 1 },
             [Output.backoffEv c.retryCount (computeDelay c.strategy c.retryCount)]) := by
          simp [step, hs, hr]
        have htail : countEv isBackoffEv
            (run { c with retryCount := c.retryCount + 1 }
              (List.replicate n (Input.attemptFail k))).2 ≤ m - (c.retryCount + 1) :=
          ih _ k m hm
        rw [e1]
        simp [countEv, isBackoffEv]
        omega
      · rw [Bool.not_eq_true] at hr
        have e1 : step c (Input.attemptFail k) =
            ({ c with state := .disconnected, pendingConnect := false },
             (if c.pendingConnect then [Output.connectCallbackEv true] else []) ++
               [Output.closeEv true]) := by
          simp [step, hs, hr]
        have htail : countEv isBackoffEv
            (run { c with state := .disconnected, pendingConnect := false }
              (List.replicate n (Input.attemptFail k))).2 ≤ m - c.retryCount :=
          ih _ k m hm
        have hz : countEv isBackoffEv
            ((if c.pendingConnect then [Output.connectCallbackEv true] else []) ++
              [Output.closeEv true]) = 0 := by
          cases hp : c.pendingConnect <;> simp [countEv, isBackoffEv]
        rw [e1]
        simp only [hz]
        omega
    | disconnected =>
      have e1 : step c (Input.attemptFail k) = (c, []) := by simp [step, hs]
      have htail : countEv isBackoffEv
          (run c (List.replicate n (Input.attemptFail k))).2 ≤ m - c.retryCount :=
        ih _ k m hm
      rw [e1]
      simpa [countEv] using htail
    | connected =>
      have e1 : step c (Input.attemptFail k) = (c, []) := by simp [step, hs]
      have htail : countEv isBackoffEv
          (run c (List.replicate n (Input.attemptFail k))).2 ≤ m - c.retryCount :=
        ih _ k m hm
      rw [e1]
      simpa [countEv] using htail
    | disconnecting =>
      have e1 : step c (Input.attemptFail k) = (c, []) := by simp [step, hs]
      have htail : countEv isBackoffEv
          (run c (List.replicate n (Input.attemptFail k))).2 ≤ m - c.retryCount :=
        ih _ k m hm
      rw [e1]
      simpa [countEv] using htail

/-- C1: For every subscription recovered via Republish after an outage,
the sequence of notifications delivered to the application is strictly
ascending in sequence number: no sequence number at or below
`lastKnownSequenceNumber` at recovery start is ever delivered again, no
delivered notification is out of order, and any sequence number the
server can no longer supply is surfaced as a NotificationGap event
rather than silently skipped. -/
theorem republish_delivers_exactly_once_in_order (sub : ClientSubscription)
    (backlog : List Nat) (evs : List RecoveryEvent)
    (h : recoverSubscription sub (some backlog) = .resumed evs) :
    (∀ s ∈ deliveredSeqs evs, sub.lastKnownSequenceNumber < s) ∧
    List.Pairwise (· < ·) (deliveredSeqs evs) ∧
    (∀ m, sub.lastKnownSequenceNumber < m → m ∉ backlog →
      (∃ s ∈ backlog, m < s) →
      ∃ lo hi, RecoveryEvent.notificationGap lo hi ∈ evs ∧ lo ≤ m ∧ m ≤ hi) := by
  have h' : republish (sub.lastKnownSequenceNumber + 1) backlog = evs := by
    simpa [recoverSubscription] using h
  subst h'
  refine ⟨?_, deliveredSeqs_ascending backlog _, ?_⟩
  · intro s hsMem
    have := deliveredSeqs_lowerBound backlog (sub.lastKnownSequenceNumber + 1) s hsMem
    omega
  · intro m hm hnot hwit
    exact gap_surfaced backlog (sub.lastKnownSequenceNumber + 1) m (by omega) hnot hwit

/-- Witness for C1 at the concrete subscription with cursor 2 and the
server backlog [3, 5, 6]: sequence number 4 is unavailable and is
covered by a surfaced NotificationGap. -/
theorem republish_delivers_exactly_once_in_order_witness :
    (2 : Nat) < 4 ∧ (4 : Nat) ∉ [3, 5, 6] ∧ (∃ s ∈ [3, 5, 6], (4 : Nat) < s) ∧
    (∃ lo hi, RecoveryEvent.notificationGap lo hi ∈
        republish 3 [3, 5, 6] ∧ lo ≤ 4 ∧ 4 ≤ hi) :=
  ⟨by decide, by decide, by decide,
   (republish_delivers_exactly_once_in_order
      ⟨⟨250, 120, 150⟩, 2, []⟩ [3, 5, 6] (republish 3 [3, 5, 6]) rfl).2.2
     4 (by decide) (by decide) (by decide)⟩

/-- C2: for every outage episode, the client emits `start_reconnection`
exactly once: along any run, the number of `start_reconnection` events
equals the number of Connected-to-Reconnecting transitions (outage
episode starts), and a transport-loss signal emits the event exactly
when the client is Connected — repeated losses while already
Reconnecting emit nothing. -/
theorem start_reconnection_once_per_episode (c : Client) (is : List Input) :
    countEv isStartReconnectionEv (run c is).2 = countEpisodeStarts c is ∧
    (step c .channelLost).2 =
      (if c.state = .connected then [Output.startReconnectionEv] else []) := by
  refine ⟨countStartReconnection_run is c, ?_⟩
  cases hs : c.state <;> simp [step, hs]

/-- C3: the `close` event fires exactly once per full disconnection
(retries exhausted or explicit disconnect): along any run its count
equals the number of terminal-disconnection steps; and from a Connected
client (e.g. right after a successful reconnection) no `close` is
emitted while no new outage and no `disconnect()` occur. -/
theorem close_once_per_full_disconnection (c : Client) (is js : List Input) :
    countEv isCloseEv (run c is).2 = countTerminalSteps c is ∧
    (c.state = .connected →
      (∀ j ∈ js, j ≠ Input.channelLost ∧ j ≠ Input.disconnectCmd) →
      countEv isCloseEv (run c js).2 = 0) := by
  refine ⟨countClose_run is c, ?_⟩
  intro hs hj
  exact connected_run_no_close js c hs hj

/-- Witness for C3: a connected client receiving a successful attempt
signal and a redundant `connect()` emits no `close`. -/
theorem close_once_per_full_disconnection_witness :
    countEv isCloseEv
      (run { initialClient robust_connectivity_strategy with state := .connected }
        [Input.disconnectCmd, Input.disconnectCmd]).2 =
      countTerminalSteps
        { initialClient robust_connectivity_strategy with state := .connected }
        [Input.disconnectCmd, Input.disconnectCmd] ∧
    countEv isCloseEv
      (run { initialClient robust_connectivity_strategy with state := .connected }
        [Input.attemptOk, Input.connectCmd]).2 = 0 :=
  ⟨(close_once_per_full_disconnection
      { initialClient robust_connectivity_strategy with state := .connected }
      [Input.disconnectCmd, Input.disconnectCmd] []).1,
   (close_once_per_full_disconnection
      { initialClient robust_connectivity_strategy with state := .connected }
      [] [Input.attemptOk, Input.connectCmd]).2 rfl (by decide)⟩

/-- C4: if `disconnect()` is called while the client is in backoff,
then after it completes the client is not reconnecting and — as long as
no new `connect()` is issued — no further event of any kind, in
particular no `backoff`, is ever emitted: the cancelled scheduler
suppresses every in-flight timer callback. -/
theorem disconnect_during_backoff_stops_events (c : Client) (is : List Input)
    (h : Input.connectCmd ∉ is) :
    isReconnecting (step c .disconnectCmd).1 = false ∧
    run (step c .disconnectCmd).1 is = ((step c .disconnectCmd).1, []) ∧
    countEv isBackoffEv (run (step c .disconnectCmd).1 is).2 = 0 ∧
    isReconnecting (run (step c .disconnectCmd).1 is).1 = false := by
  have hdisc := disconnect_lands_disconnected c
  have hrun := run_disconnected_noop _ is hdisc h
  refine ⟨?_, hrun, ?_, ?_⟩
  · simp [isReconnecting, hdisc]
  · rw [hrun]
    rfl
  · rw [hrun]
    simp [isReconnecting, hdisc]

/-- Witness for C4: disconnecting a reconnecting client in mid-backoff,
then letting two stale timer callbacks and a stale loss signal fire,
yields no backoff event and `isReconnecting = false`. -/
theorem disconnect_during_backoff_stops_events_witness :
    Input.connectCmd ∉
      [Input.attemptFail .networkFailure, Input.channelLost, Input.attemptOk] ∧
    countEv isBackoffEv
      (run (step { initialClient infinite_connectivity_strategy with
          state := .reconnecting, retryCount := 3 } .disconnectCmd).1
        [Input.attemptFail .networkFailure, Input.channelLost, Input.attemptOk]).2 = 0 ∧
    isReconnecting
      (run (step { initialClient infinite_connectivity_strategy with
          state := .reconnecting, retryCount := 3 } .disconnectCmd).1
        [Input.attemptFail .networkFailure, Input.channelLost, Input.attemptOk]).1 = false :=
  ⟨by decide,
   (disconnect_during_backoff_stops_events
      { initialClient infinite_connectivity_strategy with
          state := .reconnecting, retryCount := 3 }
      [Input.attemptFail .networkFailure, Input.channelLost, Input.attemptOk]
      (by decide)).2.2.1,
   (disconnect_during_backoff_stops_events
      { initialClient infinite_connectivity_strategy with
          state := .reconnecting, retryCount := 3 }
      [Input.attemptFail .networkFailure, Input.channelLost, Input.attemptOk]
      (by decide)).2.2.2⟩

/-- C5: if `disconnect()` is called while a `connect()` is still
pending, the pending callback is resolved with a failure within the
`disconnect()` step — before the `close` that completes teardown — and
the client ends fully torn down (Disconnected, nothing pending). -/
theorem disconnect_resolves_pending_connect (c : Client)
    (h1 : c.pendingConnect = true) (h2 : c.state ≠ .disconnected) :
    (step c .disconnectCmd).2 =
      [Output.connectCallbackEv true, Output.closeEv false] ∧
    (step c .disconnectCmd).1.state = .disconnected ∧
    (step c .disconnectCmd).1.pendingConnect = false := by
  cases hs : c.state <;> first
    | exact absurd hs h2
    | simp [step, hs, h1]

/-- Witness for C5: a client stuck in an unbounded initial-connect
retry loop, disconnected mid-loop. -/
theorem disconnect_resolves_pending_connect_witness :
    (step { initialClient infinite_connectivity_strategy with
        state := .connecting, pendingConnect := true } .disconnectCmd).2 =
      [Output.connectCallbackEv true, Output.closeEv false] ∧
    (step { initialClient infinite_connectivity_strategy with
        state := .connecting, pendingConnect := true } .disconnectCmd).1.state =
      .disconnected ∧
    (step { initialClient infinite_connectivity_strategy with
        state := .connecting, pendingConnect := true } .disconnectCmd).1.pendingConnect =
      false :=
  disconnect_resolves_pending_connect
    { initialClient infinite_connectivity_strategy with
        state := .connecting, pendingConnect := true }
    (by decide) (by decide)

/-- C6: if the outage exceeds the subscription lifetime but not the
session timeout, the session is still valid, the existence probe finds
the subscription dropped, recovery recreates it with the same requested
parameters and every MonitoredItem from its cached definition
(resetting the recovery cursor), and the fresh post-recovery stream of
consecutive sequence numbers is delivered continuously with no gap. -/
theorem subscription_recreated_after_lifetime_expiry (sub : ClientSubscription)
    (outage sessionTimeout n : Nat) (backlog : List Nat)
    (hexp : subscriptionExpired outage sub.params.requestedLifetimeCount
      sub.params.requestedPublishingInterval = true)
    (hsess : outage < sessionTimeout) :
    sessionStillValid outage sessionTimeout true = true ∧
    recoverSubscription sub (probeSubscription outage sub.params backlog) =
      .recreated (recreateSubscription sub) ∧
    (recreateSubscription sub).params = sub.params ∧
    (recreateSubscription sub).monitoredItems = sub.monitoredItems ∧
    (recreateSubscription sub).lastKnownSequenceNumber = 0 ∧
    republish 1 (List.range' 1 n) =
      (List.range' 1 n).map RecoveryEvent.delivered := by
  refine ⟨?_, ?_, rfl, rfl, rfl, republish_contiguous n 1⟩
  · simp [sessionStillValid, hsess]
  · simp [probeSubscription, hexp, recoverSubscription]

/-- Witness for C6 with the test-file subscription parameters
(publishing interval 250, lifetime count 120) and an outage of 40000
against a session timeout of 50000. -/
theorem subscription_recreated_after_lifetime_expiry_witness :
    subscriptionExpired 40000 120 250 = true ∧ (40000 : Nat) < 50000 ∧
    recoverSubscription ⟨⟨250, 120, 150⟩, 17, [⟨1, 13, 0, 1000, true⟩]⟩
        (probeSubscription 40000 ⟨250, 120, 150⟩ [18, 19]) =
      .recreated (recreateSubscription ⟨⟨250, 120, 150⟩, 17, [⟨1, 13, 0, 1000, true⟩]⟩) ∧
    republish 1 (List.range' 1 4) =
      (List.range' 1 4).map RecoveryEvent.delivered :=
  ⟨by decide, by decide,
   (subscription_recreated_after_lifetime_expiry
      ⟨⟨250, 120, 150⟩, 17, [⟨1, 13, 0, 1000, true⟩]⟩ 40000 50000 4 [18, 19]
      (by decide) (by decide)).2.1,
   (subscription_recreated_after_lifetime_expiry
      ⟨⟨250, 120, 150⟩, 17, [⟨1, 13, 0, 1000, true⟩]⟩ 40000 50000 4 [18, 19]
      (by decide) (by decide)).2.2.2.2.2⟩

/-- C7: with a finite `maxRetry` of `m`, at most `m` backoff events are
emitted over any sequence of failing attempts; with the test file's
fail-fast strategy `{maxRetry: 1, initialDelay: 10, maxDelay: 20}`
against an unreachable endpoint, exactly one backoff event (delay 10)
is emitted and then `close` fires with a network error. -/
theorem finite_maxRetry_bounds_backoff (c : Client) (k : FailureKind) (m n : Nat)
    (hm : c.strategy.maxRetry = some m) :
    countEv isBackoffEv (run c (List.replicate n (Input.attemptFail k))).2 ≤ m ∧
    (run (initialClient fail_fast_connectivity_strategy)
        [Input.connectCmd, Input.attemptFail .networkFailure,
         Input.attemptFail .networkFailure]).2 =
      [Output.backoffEv 0 10, Output.connectCallbackEv true, Output.closeEv true] := by
  constructor
  · have := backoff_run_bound n c k m hm
    omega
  · rfl

/-- Witness for C7: the fail-fast client with five failing attempts
emits at most one backoff event. -/
theorem finite_maxRetry_bounds_backoff_witness :
    (initialClient fail_fast_connectivity_strategy).strategy.maxRetry = some 1 ∧
    countEv isBackoffEv
      (run (initialClient fail_fast_connectivity_strategy)
        (List.replicate 5 (Input.attemptFail .networkFailure))).2 ≤ 1 :=
  ⟨rfl,
   (finite_maxRetry_bounds_backoff (initialClient fail_fast_connectivity_strategy)
      .networkFailure 1 5 rfl).1⟩

/-- C8: a connection attempt with an incompatible protocol version
fails at the handshake stage, the server accepts no channel for it, and
the failure feeds the connection state machine exactly like an ordinary
network failure — the retry policy, not the error kind, governs whether
further attempts are scheduled. -/
theorem protocol_mismatch_is_ordinary_failure (srv : ServerState) (cv : Nat)
    (hreach : srv.reachable = true) (hne : cv ≠ srv.protocolVersion) :
    (openChannel srv cv).1 = .error .protocolIncompatible ∧
    (openChannel srv cv).2 = srv ∧
    ∀ c : Client, step c (.attemptFail (failureKindOfOpen .protocolIncompatible)) =
      step c (.attemptFail .networkFailure) := by
  refine ⟨?_, ?_, fun c => rfl⟩
  · simp [openChannel, hreach, hne]
  · simp [openChannel, hreach, hne]

/-- Witness for C8: client protocol version 0xDEADBEEF against a server
at version 0 (test T2). -/
theorem protocol_mismatch_is_ordinary_failure_witness :
    (openChannel ⟨0, true, true, 0⟩ 0xDEADBEEF).1 =
      .error .protocolIncompatible ∧
    (openChannel ⟨0, true, true, 0⟩ 0xDEADBEEF).2.channelCount = 0 :=
  ⟨(protocol_mismatch_is_ordinary_failure ⟨0, true, true, 0⟩ 0xDEADBEEF
      rfl (by decide)).1,
   by rw [(protocol_mismatch_is_ordinary_failure ⟨0, true, true, 0⟩ 0xDEADBEEF
      rfl (by decide)).2.1]⟩

/-- C9: calling `connect()` while already Connecting or Connected
returns an error to the second caller and leaves the client unchanged;
the existing connection can still be disconnected normally. -/
theorem second_connect_returns_error (c : Client)
    (h : c.state = .connecting ∨ c.state = .connected) :
    step c .connectCmd = (c, [Output.connectRefusedEv]) ∧
    (step c .disconnectCmd).1.state = .disconnected := by
  refine ⟨?_, disconnect_lands_disconnected c⟩
  rcases h with hs | hs <;> simp [step, hs]

/-- Witness for C9: a connected robust client. -/
theorem second_connect_returns_error_witness :
    step { initialClient robust_connectivity_strategy with state := .connected }
        .connectCmd =
      ({ initialClient robust_connectivity_strategy with state := .connected },
       [Output.connectRefusedEv]) ∧
    (step { initialClient robust_connectivity_strategy with state := .connected }
        .disconnectCmd).1.state = .disconnected :=
  second_connect_returns_error
    { initialClient robust_connectivity_strategy with state := .connected }
    (Or.inr rfl)

/-- C10: after a terminal close or a failed connection attempt the
client is Disconnected and reusable: a failed attempt with retries
exhausted lands in Disconnected, and from Disconnected a fresh
`connect()` followed by a successful attempt reaches Connected with the
callback resolved successfully. -/
theorem client_reusable_after_terminal_close :
    (∀ c : Client, c.state = .disconnected →
      (run c [Input.connectCmd, Input.attemptOk]).1.state = .connected ∧
      (run c [Input.connectCmd, Input.attemptOk]).2 =
        [Output.connectCallbackEv false]) ∧
    (∀ (c : Client) (k : FailureKind),
      (c.state = .connecting ∨ c.state = .reconnecting) →
      retriesRemain c = false →
      (step c (.attemptFail k)).1.state = .disconnected) := by
  constructor
  · intro c h
    constructor <;> simp [run, step, h]
  · intro c k h hr
    rcases h with hs | hs <;> simp [step, hs, hr]

/-- Witness for C10: the fail-fast client, its retries exhausted, lands
Disconnected; reconnecting it afterwards succeeds. -/
theorem client_reusable_after_terminal_close_witness :
    (step { initialClient fail_fast_connectivity_strategy with
        state := .connecting, retryCount := 1 }
      (.attemptFail .networkFailure)).1.state = .disconnected ∧
    (run (initialClient fail_fast_connectivity_strategy)
        [Input.connectCmd, Input.attemptOk]).1.state = .connected :=
  ⟨client_reusable_after_terminal_close.2
      { initialClient fail_fast_connectivity_strategy with
          state := .connecting, retryCount := 1 }
      .networkFailure (Or.inl rfl) (by decide),
   (client_reusable_after_terminal_close.1
      (initialClient fail_fast_connectivity_strategy) rfl).1⟩

end NodeOpcua
